import Mathlib

/-!
Verification development for the japan-statistics-analyzer repository.

The source is JavaScript: src/utils.js (given as src/unnamed/part_000, after the
README) holds the normalization core (normalizeStatisticalData, determineDataType,
validateInput, buildSearchParams helpers), and src/main.js holds the per-table
orchestration loop (mainLogic, buildSearchParams, runDemoMode).

The embedding models JavaScript values with the inductive JsVal (undefined and
null are distinct, objects are ordered field lists), JS exceptions with Except
String, and the wall clock with an explicit now : String parameter supplied to
every operation that calls new Date().  Numbers produced by parseFloat are kept
as an unreduced numerator/denominator pair (JsNum) so that every definition
reduces by kernel computation; the claims never depend on float rounding, and
the nonfinite parseFloat forms (Infinity) are outside the inputs any claim
exercises.
-/

/-- Model of the JavaScript String.prototype.startsWith test on char lists:
first argument is the string, second the pattern. -/
def listStartsWith : List Char → List Char → Bool
  | _, [] => true
  | [], _ :: _ => false
  | a :: as, b :: bs => a == b && listStartsWith as bs

/-- Model of the JavaScript String.prototype.includes test on char lists:
first argument is the string, second the pattern. -/
def listContainsSub : List Char → List Char → Bool
  | [], pat => pat.isEmpty
  | s@(_ :: tail), pat => listStartsWith s pat || listContainsSub tail pat

/-- JS s.includes(pat). -/
def strIncludes (s pat : String) : Bool := listContainsSub s.data pat.data

/-- JS s.startsWith(pat). -/
def strStartsWith (s pat : String) : Bool := listStartsWith s.data pat.data

/-- JS s.substring(n) (drop the first n chars). -/
def strDrop (s : String) (n : Nat) : String := String.mk (s.data.drop n)

/-- ASCII lower-casing of one character, as JS toLowerCase acts on the
characters the source's keyword sets use (ASCII letters; CJK is unaffected). -/
def charToLower (c : Char) : Char :=
  if 65 ≤ c.toNat ∧ c.toNat ≤ 90 then Char.ofNat (c.toNat + 32) else c

/-- JS s.toLowerCase() over the modelled character range. -/
def strToLower (s : String) : String := String.mk (s.data.map charToLower)

/-- JavaScript runtime values as the normalizer sees them: JSON payloads plus
the distinguished undefined.  Object fields are ordered, mirroring JS property
insertion order, which Object.keys exposes. -/
inductive JsVal where
  | undefined : JsVal
  | null : JsVal
  | bool (b : Bool) : JsVal
  | num (n : Int) : JsVal
  | str (s : String) : JsVal
  | arr (elems : List JsVal) : JsVal
  | obj (fields : List (String × JsVal)) : JsVal

/-- Property access on v.isNullish values throws in JS. -/
def JsVal.isNullish : JsVal → Bool
  | .null => true
  | .undefined => true
  | _ => false

/-- JS truthiness.  All objects and arrays are truthy; 0, empty string, null,
undefined and false are falsy. -/
def jsTruthy : JsVal → Bool
  | .undefined => false
  | .null => false
  | .bool b => b
  | .num n => !(n == 0)
  | .str s => !s.data.isEmpty
  | .arr _ => true
  | .obj _ => true

/-- JS a || b (value-returning or). -/
def jsOr (a b : JsVal) : JsVal := if jsTruthy a then a else b

/-- Property read on a value already known not to be nullish: objects yield the
field or undefined, primitives yield undefined for the (named, non-index) keys
the source reads. -/
def propD : JsVal → String → JsVal
  | .obj fs, k =>
    match fs.find? (fun p => p.1 == k) with
    | some p => p.2
    | none => .undefined
  | _, _ => .undefined

/-- JS property access v[k] / v.k: throws a TypeError on null or undefined. -/
def getProp (v : JsVal) (k : String) : Except String JsVal :=
  if v.isNullish then .error "TypeError: cannot read properties of null or undefined"
  else .ok (propD v k)

/-- JS optional chaining v?.k: undefined instead of a throw on nullish v. -/
def optGet (v : JsVal) (k : String) : JsVal :=
  if v.isNullish then .undefined else propD v k

/-- The singleton-or-list coercion Array.isArray(v) ? v : [v] used throughout
the source. -/
def coerceArr : JsVal → List JsVal
  | .arr xs => xs
  | v => [v]

/-- JS Object.keys: field names for objects, index strings for arrays and
strings (none of which start with the @ marker), empty for other primitives. -/
def jsObjKeys : JsVal → List String
  | .obj fs => fs.map Prod.fst
  | .arr xs => (List.range xs.length).map (fun i => toString i)
  | .str s => (List.range s.data.length).map (fun i => toString i)
  | _ => []

/-- JS ToString on scalar values (used when a value becomes a property key or
is handed to parseFloat). -/
def toKeyFlat : JsVal → String
  | .undefined => "undefined"
  | .null => "null"
  | .bool b => if b then "true" else "false"
  | .num n => toString n
  | .str s => s
  | .arr _ => ""
  | .obj _ => "[object Object]"

/-- JS ToString: array elements join with commas (nulls and undefineds as
empty); modelled to element depth one, which covers every value the claims
exercise (all codes and labels in play are scalars). -/
def toKey (v : JsVal) : String :=
  match v with
  | .arr xs =>
    String.intercalate "," (xs.map (fun x =>
      match x with
      | .null => ""
      | .undefined => ""
      | y => toKeyFlat y))
  | v => toKeyFlat v

/-- Result of parseFloat, kept as an unreduced fraction so every arithmetic
step is plain Nat/Int computation. -/
structure JsNum where
  num : Int
  den : Nat
deriving DecidableEq

def isDigitChar (c : Char) : Bool := 48 ≤ c.toNat && c.toNat ≤ 57

def digitsToNat (cs : List Char) : Nat :=
  cs.foldl (fun a c => a * 10 + (c.toNat - 48)) 0

def pow10 (n : Nat) : Nat := Nat.pow 10 n

/-- JS parseFloat on a string: optional leading whitespace and sign, then the
longest prefix of the form digits [. digits] [e|E [sign] digits]; none models
NaN. -/
def jsParseFloat (s : String) : Option JsNum :=
  let cs := s.data.dropWhile (fun c => c == ' ' || c == '\t' || c == '\n' || c == '\r')
  let sgnRest : Int × List Char :=
    match cs with
    | c :: rest => if c == '-' then (-1, rest) else if c == '+' then (1, rest) else (1, cs)
    | [] => (1, [])
  let sgn := sgnRest.1
  let cs1 := sgnRest.2
  let ip := cs1.takeWhile isDigitChar
  let cs2 := cs1.dropWhile isDigitChar
  let fpRest : List Char × List Char :=
    match cs2 with
    | c :: rest =>
      if c == '.' then (rest.takeWhile isDigitChar, rest.dropWhile isDigitChar)
      else ([], cs2)
    | [] => ([], [])
  let fp := fpRest.1
  let cs3 := fpRest.2
  if ip.isEmpty && fp.isEmpty then none
  else
    let mantNum : Int := sgn * Int.ofNat (digitsToNat ip * pow10 fp.length + digitsToNat fp)
    let mantDen : Nat := pow10 fp.length
    let expVal : Int :=
      match cs3 with
      | c :: rest =>
        if c == 'e' || c == 'E' then
          match rest with
          | d :: rest2 =>
            let esgnRest : Int × List Char :=
              if d == '-' then (-1, rest2) else if d == '+' then (1, rest2) else (1, rest)
            let ed := esgnRest.2.takeWhile isDigitChar
            if ed.isEmpty then 0 else esgnRest.1 * Int.ofNat (digitsToNat ed)
          | [] => 0
        else 0
      | [] => 0
    some (if 0 ≤ expVal then
            { num := mantNum * Int.ofNat (pow10 expVal.toNat), den := mantDen }
          else
            { num := mantNum, den := mantDen * pow10 ((-expVal).toNat) })

/-- The source's parseFloat(x) || 0 idiom: NaN and zero both collapse to 0. -/
def parseFloatOrZero (s : String) : JsNum :=
  match jsParseFloat s with
  | none => { num := 0, den := 1 }
  | some q => if q.num == 0 then { num := 0, den := 1 } else q

/-- determineDataType from src/utils.js lines 321-333 (the 経済 keyword is
tested twice in the source; the duplication is kept). -/
def determineDataType (statName : String) : String :=
  let name := strToLower statName
  if strIncludes name "人口" || strIncludes name "population" then "population"
  else if strIncludes name "経済" || strIncludes name "gdp" || strIncludes name "経済" then "economic"
  else if strIncludes name "労働" || strIncludes name "雇用" || strIncludes name "labor" then "labor"
  else if strIncludes name "産業" || strIncludes name "industry" then "industry"
  else if strIncludes name "教育" || strIncludes name "education" then "education"
  else if strIncludes name "医療" || strIncludes name "health" then "health"
  else if strIncludes name "環境" || strIncludes name "environment" then "environment"
  else "general"

/-- The call determineDataType(statName) as JS executes it: statName may be a
non-string (a TITLE object survives the || fallback because objects are
truthy), and .toLowerCase() then throws. -/
def determineDataTypeJs : JsVal → Except String String
  | .str s => .ok (determineDataType s)
  | _ => .error "TypeError: statName.toLowerCase is not a function"

/-- Spec-side view of the classifier (built from the words of spec section 4.3):
an ordered table of keyword sets, first matching category wins, no match
yields general. -/
def classifierTable : List (String × List String) :=
  [("population", ["人口", "population"]),
   ("economic", ["経済", "gdp"]),
   ("labor", ["労働", "雇用", "labor"]),
   ("industry", ["産業", "industry"]),
   ("education", ["教育", "education"]),
   ("health", ["医療", "health"]),
   ("environment", ["環境", "environment"])]

/-- Spec-side classifier: first category of the fixed ordered table one of
whose keywords occurs in the lower-cased title. -/
def specClassify (s : String) : String :=
  let name := strToLower s
  match classifierTable.find? (fun p => p.2.any (fun k => strIncludes name k)) with
  | some p => p.1
  | none => "general"


/-- The classification index the source builds into classObj: a list mapping
classification id to a list of code-to-label entries.  Later entries shadow
earlier ones, mirroring JS object assignment. -/
abbrev ClassIndex := List (String × List (String × JsVal))

/-- Lookup honouring JS assignment-overwrite: the last binding of a key wins. -/
def lookupLast {α : Type} (l : List (String × α)) (k : String) : Option α :=
  match l.reverse.find? (fun p => p.1 == k) with
  | some p => some p.2
  | none => none

/-- classItems.reduce((acc, item) => acc[item at-code] = item at-name, {}) from
utils.js lines 256-259.  Accessing item throws when an entry is nullish. -/
def buildEntries (items : List JsVal) : Except String (List (String × JsVal)) :=
  items.foldlM (fun acc item => do
    let code ← getProp item "@code"
    pure (acc ++ [(toKey code, propD item "@name")])) []

/-- The classObj construction from utils.js lines 250-262, taking the CLASS_INF
section of the raw payload. -/
def buildClassObj (classInf : JsVal) : Except String ClassIndex :=
  if jsTruthy (optGet classInf "CLASS_OBJ") then
    (coerceArr (propD classInf "CLASS_OBJ")).foldlM (fun acc cls => do
      let c ← getProp cls "CLASS"
      if jsTruthy c then
        let entries ← buildEntries (coerceArr c)
        pure (acc ++ [(toKey (propD cls "@id"), entries)])
      else
        pure acc) []
  else
    pure []

/-- classObj[classId]?.[code] from utils.js line 276: undefined when the id or
the code is absent. -/
def idxLookup (idx : ClassIndex) (cid : String) (code : JsVal) : JsVal :=
  match lookupLast idx cid with
  | none => .undefined
  | some es =>
    match lookupLast es (toKey code) with
    | some l => l
    | none => .undefined

/-- Option-valued view of the same lookup, used to state when an (id, code)
pair exists in the index. -/
def lookupClass (idx : ClassIndex) (cid code : String) : Option JsVal :=
  match lookupLast idx cid with
  | none => none
  | some es => lookupLast es code

/-- classObj[classId]?.[code] || code, the per-attribute resolution of
utils.js line 276. -/
def resolveCode (idx : ClassIndex) (cid : String) (code : JsVal) : JsVal :=
  jsOr (idxLookup idx cid code) code

/-- The categories object built per value row (utils.js lines 271-278): every
key that starts with the @ marker other than the unit attribute is resolved
through the index, falling back to the raw code. -/
def buildCategories (idx : ClassIndex) (valueItem : JsVal) : List (String × JsVal) :=
  (jsObjKeys valueItem).foldl (fun acc key =>
    if strStartsWith key "@" && key != "@unit" then
      acc ++ [(strDrop key 1, resolveCode idx (strDrop key 1) (propD valueItem key))]
    else acc) []

/-- categories.k access on the built categories object. -/
def catGet (cats : List (String × JsVal)) (k : String) : JsVal :=
  match lookupLast cats k with
  | some v => v
  | none => .undefined

/-- The metadata property the source attaches to every record: the normal
shape from line 291, or the error shape from line 313. -/
inductive RecMeta where
  | norm (tableTitle : JsVal) (categories : List (String × JsVal)) (originalAttributes : JsVal) : RecMeta
  | err (error : String) (rawData : JsVal) : RecMeta

/-- The record pushed by normalizeStatisticalData.  Every field of the JS
object literal from utils.js lines 280-298 (and of the error literal from
lines 302-315) is present; in particular metadata is unconditional. -/
structure OutputRecord where
  statName : JsVal
  surveyDate : JsVal
  region : JsVal
  category1 : JsVal
  category2 : JsVal
  value : JsNum
  unit : JsVal
  sourceTableId : JsVal
  dataType : String
  lastUpdated : JsVal
  metadata : RecMeta
  extractedAt : String

/-- One iteration of the values.forEach body (utils.js lines 267-298).  The
dollar access throws on a nullish row; determineDataType throws when statName
is not a string. -/
def normalizeRow (idx : ClassIndex) (statName surveyDate lastUpd sourceTableId : JsVal)
    (now : String) (valueItem : JsVal) : Except String OutputRecord :=
  match getProp valueItem "$" with
  | .error e => .error e
  | .ok dollar =>
    match determineDataTypeJs statName with
    | .error e => .error e
    | .ok dt =>
      let cats := buildCategories idx valueItem
      .ok {
        statName := statName
        surveyDate := surveyDate
        region := jsOr (catGet cats "area") (jsOr (catGet cats "region") (.str "Japan"))
        category1 := jsOr (catGet cats "cat01") (jsOr (catGet cats "tab") (.str "General"))
        category2 := jsOr (catGet cats "cat02") (jsOr (catGet cats "cat03") (.str ""))
        value := parseFloatOrZero (toKey dollar)
        unit := jsOr (propD valueItem "@unit") (.str "")
        sourceTableId := sourceTableId
        dataType := dt
        lastUpdated := lastUpd
        metadata := .norm statName cats valueItem
        extractedAt := now }

/-- The forEach loop: records pushed so far plus the first error, if any
row threw. -/
def normRows (idx : ClassIndex) (statName surveyDate lastUpd sourceTableId : JsVal)
    (now : String) : List JsVal → List OutputRecord × Option String
  | [] => ([], none)
  | it :: rest =>
    match normalizeRow idx statName surveyDate lastUpd sourceTableId now it with
    | .error e => ([], some e)
    | .ok r =>
      (r :: (normRows idx statName surveyDate lastUpd sourceTableId now rest).1,
       (normRows idx statName surveyDate lastUpd sourceTableId now rest).2)

/-- The try block of normalizeStatisticalData (utils.js lines 242-299):
the records accumulated in normalizedData, and the exception that interrupted
processing when one was raised. -/
def normBody (rawData sourceTableId : JsVal) (now : String) : List OutputRecord × Option String :=
  match getProp rawData "TABLE_INF" with
  | .error e => ([], some e)
  | .ok tableInf =>
    match getProp rawData "CLASS_INF" with
    | .error e => ([], some e)
    | .ok classInf =>
      match getProp rawData "DATA_INF" with
      | .error e => ([], some e)
      | .ok dataInf =>
        let statName := jsOr (optGet tableInf "TITLE") (.str "Unknown Statistic")
        let surveyDate := jsOr (optGet tableInf "SURVEY_DATE") (.str "Unknown Date")
        match buildClassObj classInf with
        | .error e => ([], some e)
        | .ok idx =>
          if jsTruthy (optGet dataInf "VALUE") then
            let values := coerceArr (propD dataInf "VALUE")
            let lastUpd := jsOr (optGet tableInf "UPDATED_DATE") (.str now)
            normRows idx statName surveyDate lastUpd sourceTableId now values
          else
            ([], none)

/-- The catch block of normalizeStatisticalData (utils.js lines 300-315).  It
re-reads rawData.TABLE_INF, which itself throws when rawData is nullish. -/
def buildErrorRecord (rawData sourceTableId : JsVal) (now : String) (e : String) :
    Except String OutputRecord :=
  match getProp rawData "TABLE_INF" with
  | .error e2 => .error e2
  | .ok ti =>
    .ok {
      statName := jsOr (optGet ti "TITLE") (.str "Unknown Statistic")
      surveyDate := jsOr (optGet ti "SURVEY_DATE") (.str "Unknown Date")
      region := .str "Japan"
      category1 := .str "General"
      category2 := .str ""
      value := { num := 0, den := 1 }
      unit := .str ""
      sourceTableId := sourceTableId
      dataType := "unknown"
      lastUpdated := .str now
      metadata := .err e rawData
      extractedAt := now }

/-- normalizeStatisticalData from utils.js lines 239-319.  The metadata
argument is accepted and, exactly as in the source, never used; a second throw
inside the catch block escapes the function as an error. -/
def normalizeStatisticalData (rawData metadata sourceTableId : JsVal) (now : String) :
    Except String (List OutputRecord) :=
  match normBody rawData sourceTableId now with
  | (recs, none) => .ok recs
  | (recs, some e) =>
    match buildErrorRecord rawData sourceTableId now e with
    | .ok r => .ok (recs ++ [r])
    | .error e2 => .error e2

/-- Number of value rows the payload carries after the singleton-or-list
coercion (0 when the VALUE container is absent or falsy). -/
def rowCount (rawData : JsVal) : Nat :=
  if jsTruthy (optGet (propD rawData "DATA_INF") "VALUE") then
    (coerceArr (propD (propD rawData "DATA_INF") "VALUE")).length
  else 0

/-- The record list of a normalization outcome (empty on a throw). -/
def resultRecords (r : Except String (List OutputRecord)) : List OutputRecord :=
  match r with
  | .ok l => l
  | .error _ => []

/-- An OutputRecord with the two wall-clock fields removed, used to state
what stays fixed across repeated normalizations. -/
structure CoreRecord where
  statName : JsVal
  surveyDate : JsVal
  region : JsVal
  category1 : JsVal
  category2 : JsVal
  value : JsNum
  unit : JsVal
  sourceTableId : JsVal
  dataType : String
  metadata : RecMeta

/-- Drop the extractedAt and lastUpdated fields. -/
def stripTs (r : OutputRecord) : CoreRecord :=
  { statName := r.statName
    surveyDate := r.surveyDate
    region := r.region
    category1 := r.category1
    category2 := r.category2
    value := r.value
    unit := r.unit
    sourceTableId := r.sourceTableId
    dataType := r.dataType
    metadata := r.metadata }

/-- The two properties of a search-result table descriptor that mainLogic
reads: table at-id and table.TITLE. -/
structure TableDesc where
  id : JsVal
  title : JsVal

/-- The remote collaborators of one run, as response oracles: what
getMetaInfo and getStatsData would return (or throw) for a given table id. -/
structure Collab where
  metaOf : JsVal → Except String JsVal
  dataOf : JsVal → Except String JsVal

/-- The validated option set produced by validateInput (utils.js 335-346). -/
structure VInput where
  searchKeyword : String
  surveyYears : String
  statsField : String
  maxItems : Nat
  includeMetadata : Bool
  outputFormat : String

/-- The search parameters built by buildSearchParams (main.js 181-188):
falsy strings are omitted and the limit asks for up to twice maxItems,
capped at 100. -/
structure SearchParams where
  searchWord : Option String
  surveyYears : Option String
  statsField : Option String
  limit : Nat

def buildSearchParams (input : VInput) : SearchParams :=
  { searchWord := if input.searchKeyword != "" then some input.searchKeyword else none
    surveyYears := if input.surveyYears != "" then some input.surveyYears else none
    statsField := if input.statsField != "" then some input.statsField else none
    limit := min (input.maxItems * 2) 100 }

/-- One record of the fixed demo dataset (main.js 192-221). -/
structure DemoRec where
  statName : String
  surveyDate : String
  region : String
  category1 : String
  category2 : String
  value : Int
  unit : String
  sourceTableId : String
  dataType : String
  lastUpdated : String
  metadata : JsVal
  extractedAt : String

/-- Everything Actor.pushData can receive during a run. -/
inductive Item where
  | record (r : OutputRecord) : Item
  | rawItem (tableId : JsVal) (table : TableDesc) (metadata rawData : JsVal) (extractedAt : String) : Item
  | errorItem (tableId tableTitle : JsVal) (error : String) (extractedAt : String) : Item
  | summary (tablesProcessed totalDataPoints : Nat) (completedAt : String) : Item
  | demo (r : DemoRec) : Item
  | demoSummary (demoDataPoints : Nat) (completedAt : String) : Item
  | runError (error : String) (extractedAt : String) : Item
  | noData (extractedAt : String) : Item

/-- The items tagged type error at either level (per-table or run). -/
def isErrorTagged : Item → Bool
  | .errorItem _ _ _ _ => true
  | .runError _ _ => true
  | _ => false

/-- Normalized records among a list of emitted items. -/
def recordsOf (items : List Item) : List OutputRecord :=
  items.filterMap (fun i =>
    match i with
    | .record r => some r
    | _ => none)

/-- The fixed 2-record sample dataset of runDemoMode (main.js 192-221). -/
def demoData (now : String) : List DemoRec :=
  [{ statName := "国勢調査 人口総数"
     surveyDate := "2020年"
     region := "全国"
     category1 := "総人口"
     category2 := "男女計"
     value := 125836021
     unit := "人"
     sourceTableId := "demo_001"
     dataType := "population"
     lastUpdated := "2021-06-25T00:00:00Z"
     metadata := .obj [("tableTitle", .str "国勢調査 人口総数"),
                       ("categories", .obj [("area", .str "全国"), ("gender", .str "男女計")]),
                       ("note", .str "This is demo data")]
     extractedAt := now },
   { statName := "労働力調査 就業者数"
     surveyDate := "2023年12月"
     region := "全国"
     category1 := "就業者"
     category2 := "総数"
     value := 67230000
     unit := "人"
     sourceTableId := "demo_002"
     dataType := "labor"
     lastUpdated := "2024-01-30T00:00:00Z"
     metadata := .obj [("tableTitle", .str "労働力調査 就業者数"),
                       ("categories", .obj [("area", .str "全国"), ("employment", .str "就業者")]),
                       ("note", .str "This is demo data")]
     extractedAt := now }]

/-- The keyword predicate of the demo filter (main.js 226-230): case-folded
substring match against statName, category1 or dataType. -/
def demoFilter (keyword : String) (item : DemoRec) : Bool :=
  strIncludes (strToLower item.statName) keyword ||
  strIncludes (strToLower item.category1) keyword ||
  strIncludes (strToLower item.dataType) keyword

/-- The demo dataset after the keyword filter (applied only for a truthy
keyword) and the maxItems cap (main.js 223-232). -/
def demoCapped (input : VInput) (now : String) : List DemoRec :=
  let filtered :=
    if input.searchKeyword != "" then
      (demoData now).filter (demoFilter (strToLower input.searchKeyword))
    else demoData now
  filtered.take input.maxItems

/-- runDemoMode (main.js 190-248): the filtered, capped sample records then
one demo_summary item. -/
def runDemoMode (input : VInput) (now : String) : List Item :=
  (demoCapped input now).map Item.demo ++
    [Item.demoSummary (demoCapped input now).length now]

/-- The body of the per-table loop of mainLogic (main.js 70-138) for one
table: optional metadata fetch whose failure only nulls the metadata, the
data fetch whose failure yields the single error item, then the raw and
structured emissions.  Returns the emitted items and the number of data
points counted toward totalDataPoints. -/
def processTable (c : Collab) (input : VInput) (now : String) (t : TableDesc) :
    List Item × Nat :=
  let meta : JsVal :=
    if input.includeMetadata then
      match c.metaOf t.id with
      | .ok m => m
      | .error _ => JsVal.null
    else JsVal.null
  match c.dataOf t.id with
  | .error e => ([Item.errorItem t.id t.title e now], 0)
  | .ok statsData =>
    let rawItems : List Item :=
      if input.outputFormat == "raw" || input.outputFormat == "both" then
        [Item.rawItem t.id t meta statsData now]
      else []
    if input.outputFormat == "structured" || input.outputFormat == "both" then
      match normalizeStatisticalData statsData meta t.id now with
      | .ok recs => (rawItems ++ recs.map Item.record, recs.length)
      | .error e => (rawItems ++ [Item.errorItem t.id t.title e now], 0)
    else (rawItems, 0)

/-- The sequential loop over the bounded table list. -/
def processLoop (c : Collab) (input : VInput) (now : String) :
    List TableDesc → List Item × Nat
  | [] => ([], 0)
  | t :: ts =>
    let head := processTable c input now t
    let rest := processLoop c input now ts
    (head.1 ++ rest.1, head.2 + rest.2)

/-- mainLogic (main.js 14-179), with the outcome of the getStatsList call an
explicit argument.  Without an app id the run is demo mode; on a search
failure whose message mentions 403, 401 or API the run falls back to demo
mode directly, and on any other failure it emits one run-level error item and
then still falls back; otherwise the candidate list is cut to maxItems, each
table is processed in order, and a final summary item is emitted. -/
def mainLogic (c : Collab) (searchResult : Except String (List TableDesc))
    (input : VInput) (now : String) (hasAppId : Bool) : List Item :=
  if !hasAppId then runDemoMode input now
  else
    match searchResult with
    | .ok tables =>
      if tables.length == 0 then [Item.noData now]
      else
        let toProcess := tables.take input.maxItems
        let run := processLoop c input now toProcess
        run.1 ++ [Item.summary toProcess.length run.2 now]
    | .error e =>
      if strIncludes e "403" || strIncludes e "401" || strIncludes e "API" then
        runDemoMode input now
      else
        Item.runError e now :: runDemoMode input now

/-- Spec-side selector: the value of the first key of the given priority list
whose resolved entry is truthy, else the fallback (what the field-precedence
lines of utils.js 283-285 actually compute). -/
def firstTruthy (cats : List (String × JsVal)) : List String → JsVal → JsVal
  | [], fb => fb
  | k :: ks, fb =>
    if jsTruthy (catGet cats k) then catGet cats k else firstTruthy cats ks fb

/-- Spec-side selector as claim C3 words it: the value of the first key that
is present in the categories mapping, else the fallback. -/
def firstPresent (cats : List (String × JsVal)) : List String → JsVal → JsVal
  | [], fb => fb
  | k :: ks, fb =>
    match lookupLast cats k with
    | some v => v
    | none => firstPresent cats ks fb

/-- A placeholder record used only to project successful results. -/
def dummyRecord : OutputRecord :=
  { statName := .undefined, surveyDate := .undefined, region := .undefined, category1 := .undefined
    category2 := .undefined, value := { num := 0, den := 1 }, unit := .undefined
    sourceTableId := .undefined, dataType := "", lastUpdated := .undefined
    metadata := .err "" .undefined, extractedAt := "" }

/-- Project the record out of a successful row normalization. -/
def okRecord (e : Except String OutputRecord) : OutputRecord :=
  match e with
  | .ok r => r
  | .error _ => dummyRecord

/-- Concrete payload whose DATA_INF carries no VALUE container. -/
def cRawEmptyValue : JsVal := .obj [("DATA_INF", .obj [])]

/-- Concrete well-formed one-row payload without UPDATED_DATE. -/
def cRawOneRow : JsVal := .obj [
  ("TABLE_INF", .obj [("TITLE", .str "統計")]),
  ("DATA_INF", .obj [("VALUE", .obj [("$", .str "5")])])]

/-- Concrete classification index: area code 00000 labels 全国. -/
def cIdxArea : ClassIndex := [("area", [("00000", JsVal.str "全国")])]

/-- Concrete classification index whose label for (area, 01) is the empty
string. -/
def cIdxEmptyLabel : ClassIndex := [("area", [("01", JsVal.str "")])]

/-- Concrete value row whose area code is the empty string (falsy) while a
region code is present. -/
def cRowAreaEmpty : JsVal := .obj [("@area", .str ""), ("@region", .str "X"), ("$", .str "1")]

/-- The value row of the spec section 8 scenario. -/
def cScenarioRow : JsVal := .obj [("@area", .str "00000"), ("@unit", .str "人"), ("$", .str "125836021")]

/-- The full payload of the spec section 8 scenario: CLASS_INF labels area
code 00000 as 全国 and one value row references it. -/
def cRawScenario : JsVal := .obj [
  ("TABLE_INF", .obj [("TITLE", .str "国勢調査 人口総数"), ("SURVEY_DATE", .str "2020年"),
                      ("UPDATED_DATE", .str "2021-06-25")]),
  ("CLASS_INF", .obj [("CLASS_OBJ", .obj [("@id", .str "area"),
                      ("CLASS", .obj [("@code", .str "00000"), ("@name", .str "全国")])])]),
  ("DATA_INF", .obj [("VALUE", .obj [("@area", .str "00000"), ("@unit", .str "人"),
                      ("$", .str "125836021")])])]

/-- Concrete table descriptor. -/
def cTableOne : TableDesc := { id := .str "0003448738", title := .str "国勢調査 人口総数" }

/-- Concrete second table descriptor. -/
def cTableTwo : TableDesc := { id := .str "0009999999", title := .str "別の統計表" }

/-- Concrete validated inputs. -/
def cInputStructured : VInput :=
  { searchKeyword := "", surveyYears := "", statsField := "", maxItems := 10,
    includeMetadata := true, outputFormat := "structured" }

def cInputNoMeta : VInput :=
  { searchKeyword := "", surveyYears := "", statsField := "", maxItems := 10,
    includeMetadata := false, outputFormat := "structured" }

def cInputOneItem : VInput :=
  { searchKeyword := "", surveyYears := "", statsField := "", maxItems := 1,
    includeMetadata := false, outputFormat := "structured" }

/-- Collaborators that answer every call successfully. -/
def cCollabOk : Collab :=
  { metaOf := fun _ => .ok (.obj []), dataOf := fun _ => .ok cRawScenario }

/-- Collaborators whose data fetch always fails. -/
def cCollabDataFail : Collab :=
  { metaOf := fun _ => .ok (.obj []), dataOf := fun _ => .error "e-Stat API Error: fetch failed" }

/-- Collaborators whose metadata fetch fails while the data fetch succeeds. -/
def cCollabMetaFail : Collab :=
  { metaOf := fun _ => .error "e-Stat API Error: meta failed", dataOf := fun _ => .ok cRawScenario }

theorem getProp_not_nullish (v : JsVal) (k : String) (h : v.isNullish = false) :
    getProp v k = .ok (propD v k) := by
  simp [getProp, h]

theorem normRows_none_length (idx : ClassIndex) (sn sd lu sid : JsVal) (now : String) :
    ∀ rows : List JsVal, (normRows idx sn sd lu sid now rows).2 = none →
      (normRows idx sn sd lu sid now rows).1.length = rows.length := by
  intro rows
  induction rows with
  | nil => intro _; rfl
  | cons it rest ih =>
    intro hn
    unfold normRows at hn ⊢
    cases hr : normalizeRow idx sn sd lu sid now it with
    | error e =>
      rw [hr] at hn
      simp at hn
    | ok r =>
      rw [hr] at hn
      dsimp only at hn ⊢
      simp only [List.length_cons]
      rw [ih hn]

theorem normBody_none_length (rawData sid : JsVal) (now : String)
    (h : rawData.isNullish = false)
    (hn : (normBody rawData sid now).2 = none) :
    (normBody rawData sid now).1.length = rowCount rawData := by
  unfold normBody at hn ⊢
  rw [getProp_not_nullish rawData "TABLE_INF" h, getProp_not_nullish rawData "CLASS_INF" h,
      getProp_not_nullish rawData "DATA_INF" h] at hn ⊢
  dsimp only at hn ⊢
  cases hc : buildClassObj (propD rawData "CLASS_INF") with
  | error e =>
    rw [hc] at hn
    simp at hn
  | ok idx =>
    rw [hc] at hn
    dsimp only at hn
    by_cases ht : jsTruthy (optGet (propD rawData "DATA_INF") "VALUE") = true
    · simp only [ht, if_true] at hn ⊢
      rw [normRows_none_length _ _ _ _ _ _ _ hn]
      simp [rowCount, ht]
    · simp only [Bool.not_eq_true] at ht
      simp only [ht] at hn ⊢
      simp [rowCount, ht]

/-- Claim C1 (amended): for a payload that is itself not null or undefined,
normalizeStatisticalData never throws; when the try block finishes without an
exception the result is exactly its accumulated records, one per value row
(and hence possibly empty); when the try block raises, the result is those
records followed by exactly one synthetic error record with value 0, dataType
unknown and metadata.error set. -/
theorem claim_C1_normalize_shape (rawData metadata sourceTableId : JsVal) (now : String)
    (h : rawData.isNullish = false) :
    ∃ rs, normalizeStatisticalData rawData metadata sourceTableId now = .ok rs ∧
      ((normBody rawData sourceTableId now).2 = none →
        rs = (normBody rawData sourceTableId now).1 ∧ rs.length = rowCount rawData) ∧
      (∀ e, (normBody rawData sourceTableId now).2 = some e →
        ∃ r, rs = (normBody rawData sourceTableId now).1 ++ [r] ∧
          rs.length = (normBody rawData sourceTableId now).1.length + 1 ∧
          r.value = { num := 0, den := 1 } ∧ r.dataType = "unknown" ∧
          r.metadata = RecMeta.err e rawData) := by
  have hlen := normBody_none_length rawData sourceTableId now h
  unfold normalizeStatisticalData
  cases hb : normBody rawData sourceTableId now with
  | mk recs errOpt =>
    cases errOpt with
    | none =>
      refine ⟨recs, rfl, fun _ => ⟨rfl, ?_⟩, fun e he => absurd he (by simp)⟩
      have hlen2 := hlen (by rw [hb])
      rw [hb] at hlen2
      exact hlen2
    | some e =>
      dsimp only
      cases hbe : buildErrorRecord rawData sourceTableId now e with
      | error e2 =>
        exfalso
        unfold buildErrorRecord at hbe
        rw [getProp_not_nullish rawData "TABLE_INF" h] at hbe
        simp at hbe
      | ok r =>
        refine ⟨recs ++ [r], rfl, fun hcon => absurd hcon (by simp), ?_⟩
        intro e2 he2
        have he2e : e = e2 := Option.some.inj he2
        subst he2e
        unfold buildErrorRecord at hbe
        rw [getProp_not_nullish rawData "TABLE_INF" h] at hbe
        dsimp only at hbe
        cases hbe
        exact ⟨_, rfl, by simp, rfl, rfl, rfl⟩

/-- Claim C1 witness: the shape theorem applied to a concrete well-formed
one-row payload. -/
theorem claim_C1_witness :
    JsVal.isNullish cRawOneRow = false ∧
    (∃ rs, normalizeStatisticalData cRawOneRow .null (.str "t") "T0" = .ok rs ∧
      ((normBody cRawOneRow (.str "t") "T0").2 = none →
        rs = (normBody cRawOneRow (.str "t") "T0").1 ∧ rs.length = rowCount cRawOneRow) ∧
      (∀ e, (normBody cRawOneRow (.str "t") "T0").2 = some e →
        ∃ r, rs = (normBody cRawOneRow (.str "t") "T0").1 ++ [r] ∧
          rs.length = (normBody cRawOneRow (.str "t") "T0").1.length + 1 ∧
          r.value = { num := 0, den := 1 } ∧ r.dataType = "unknown" ∧
          r.metadata = RecMeta.err e cRawOneRow)) :=
  ⟨rfl, claim_C1_normalize_shape cRawOneRow .null (.str "t") "T0" rfl⟩

/-- Claim C1 counterexample: on a payload whose DATA_INF has no VALUE
container the function succeeds with the empty list, so the result is a list
of length 0, contradicting the claim that the result is never empty. -/
theorem claim_C1_counterexample :
    normalizeStatisticalData cRawEmptyValue .null (.str "t") "T0" = .ok [] ∧
    (resultRecords (normalizeStatisticalData cRawEmptyValue .null (.str "t") "T0")).length = 0 :=
  ⟨rfl, rfl⟩

theorem idxLookup_str (idx : ClassIndex) (cid code : String) :
    idxLookup idx cid (.str code) =
      (match lookupClass idx cid code with
       | some l => l
       | none => JsVal.undefined) := by
  unfold idxLookup lookupClass
  cases lookupLast idx cid <;> rfl

/-- Claim C2 (amended): resolving (id, code) through a classification index
returns the metadata-provided label only when the pair exists and the label
is truthy (in particular a non-empty string); when the pair exists with a
falsy label, or does not exist at all, the code string is returned unchanged;
resolution is total and never yields undefined. -/
theorem claim_C2_resolution (idx : ClassIndex) (cid code : String) :
    (∀ l, lookupClass idx cid code = some l → jsTruthy l = true →
      resolveCode idx cid (.str code) = l) ∧
    (∀ l, lookupClass idx cid code = some l → jsTruthy l = false →
      resolveCode idx cid (.str code) = .str code) ∧
    (lookupClass idx cid code = none → resolveCode idx cid (.str code) = .str code) ∧
    resolveCode idx cid (.str code) ≠ .undefined := by
  unfold resolveCode jsOr
  rw [idxLookup_str idx cid code]
  cases hx : lookupClass idx cid code with
  | none =>
    dsimp only
    exact ⟨fun l hl => by simp at hl, fun l hl => by simp at hl,
      fun _ => by simp [jsTruthy], by simp [jsTruthy]⟩
  | some l0 =>
    dsimp only
    refine ⟨fun l hl ht => ?_, fun l hl hf => ?_, fun hcon => by simp at hcon, ?_⟩
    · have hle : l0 = l := Option.some.inj hl
      subst hle
      simp [ht]
    · have hle : l0 = l := Option.some.inj hl
      subst hle
      simp [hf]
    · by_cases ht : jsTruthy l0 = true
      · simp only [ht, if_true]
        intro hcon
        rw [hcon] at ht
        simp [jsTruthy] at ht
      · simp only [Bool.not_eq_true] at ht
        simp [ht]

/-- Claim C2 witness: the amended theorem applied to the concrete index that
labels area code 00000 as the truthy label 全国. -/
theorem claim_C2_witness :
    lookupClass cIdxArea "area" "00000" = some (.str "全国") ∧
    jsTruthy (.str "全国") = true ∧
    resolveCode cIdxArea "area" (.str "00000") = .str "全国" :=
  ⟨rfl, rfl, (claim_C2_resolution cIdxArea "area" "00000").1 (.str "全国") rfl rfl⟩

/-- Claim C2 counterexample: the pair (area, 01) exists in the index with the
(empty-string) label, yet resolution returns the code 01 rather than that
label, refuting the claim that an existing pair always resolves to its
metadata-provided label. -/
theorem claim_C2_counterexample :
    lookupClass cIdxEmptyLabel "area" "01" = some (.str "") ∧
    resolveCode cIdxEmptyLabel "area" (.str "01") = .str "01" ∧
    JsVal.str "01" ≠ JsVal.str "" :=
  ⟨rfl, rfl, by simp⟩

/-- Claim C3 (amended): for every value row a successful row normalization
selects region as the first of the keys area, region whose resolved category
value is truthy (falling back to the Japan label), category1 as the first
truthy of cat01, tab (falling back to General), and category2 as the first
truthy of cat02, cat03 (falling back to the empty string)  - presence of a key
with a falsy resolved value is skipped. -/
theorem claim_C3_precedence (idx : ClassIndex) (sn sd lu sid : JsVal) (now : String)
    (item : JsVal) (r : OutputRecord)
    (h : normalizeRow idx sn sd lu sid now item = .ok r) :
    r.region = firstTruthy (buildCategories idx item) ["area", "region"] (.str "Japan") ∧
    r.category1 = firstTruthy (buildCategories idx item) ["cat01", "tab"] (.str "General") ∧
    r.category2 = firstTruthy (buildCategories idx item) ["cat02", "cat03"] (.str "") := by
  unfold normalizeRow at h
  cases hd : getProp item "$" with
  | error e => rw [hd] at h; simp at h
  | ok dollar =>
    rw [hd] at h
    cases hdt : determineDataTypeJs sn with
    | error e => rw [hdt] at h; simp at h
    | ok dt =>
      rw [hdt] at h
      dsimp only at h
      cases h
      refine ⟨?_, ?_, ?_⟩ <;> rfl

/-- Claim C3 witness: the amended theorem applied to the spec scenario row
resolved through the concrete area index. -/
theorem claim_C3_witness :
    normalizeRow cIdxArea (.str "S") (.str "D") (.str "L") (.str "t") "T0" cScenarioRow
      = .ok (okRecord (normalizeRow cIdxArea (.str "S") (.str "D") (.str "L") (.str "t") "T0" cScenarioRow)) ∧
    ((okRecord (normalizeRow cIdxArea (.str "S") (.str "D") (.str "L") (.str "t") "T0" cScenarioRow)).region
        = firstTruthy (buildCategories cIdxArea cScenarioRow) ["area", "region"] (.str "Japan") ∧
      (okRecord (normalizeRow cIdxArea (.str "S") (.str "D") (.str "L") (.str "t") "T0" cScenarioRow)).category1
        = firstTruthy (buildCategories cIdxArea cScenarioRow) ["cat01", "tab"] (.str "General") ∧
      (okRecord (normalizeRow cIdxArea (.str "S") (.str "D") (.str "L") (.str "t") "T0" cScenarioRow)).category2
        = firstTruthy (buildCategories cIdxArea cScenarioRow) ["cat02", "cat03"] (.str "")) :=
  ⟨rfl, claim_C3_precedence cIdxArea (.str "S") (.str "D") (.str "L") (.str "t") "T0" cScenarioRow _ rfl⟩

/-- Claim C3 counterexample: in a row whose area key is present but resolves
to the empty string while a region key is also present, the record region is
the region value X, not the value of the first present key (area, whose
resolved value is the empty string) - so selection is by first truthy key,
not first present key as the claim states. -/
theorem claim_C3_counterexample :
    (normalizeRow [] (.str "T") (.str "D") (.str "L") (.str "t") "T0" cRowAreaEmpty).map
        (fun r => r.region) = .ok (.str "X") ∧
    lookupLast (buildCategories [] cRowAreaEmpty) "area" = some (.str "") ∧
    firstPresent (buildCategories [] cRowAreaEmpty) ["area", "region"] (.str "Japan") = .str "" ∧
    JsVal.str "X" ≠ JsVal.str "" :=
  ⟨rfl, rfl, rfl, by simp⟩

/-- Claim C4: determineDataType is total and deterministic, always returns
one of the 8 fixed categories, agrees with the spec-side ordered
first-match-wins keyword table (population, economic, labor, industry,
education, health, environment, then general), and on a title containing
both a population term and a labor term returns population. -/
theorem claim_C4_classifier :
    (∀ s : String,
      determineDataType s ∈ ["population", "economic", "labor", "industry",
        "education", "health", "environment", "general"] ∧
      determineDataType s = specClassify s) ∧
    determineDataType "労働人口の統計" = "population" := by
  refine ⟨fun s => ⟨?_, ?_⟩, by rfl⟩
  · unfold determineDataType
    dsimp only
    split_ifs <;> simp
  · unfold determineDataType specClassify classifierTable
    have hd : ∀ a b : Bool, (a || b || a) = (a || b) := by decide
    simp only [List.find?, List.any, Bool.or_false, hd, Bool.or_assoc]
    generalize (strIncludes (strToLower s) "人口" || strIncludes (strToLower s) "population") = c1
    generalize (strIncludes (strToLower s) "経済" || strIncludes (strToLower s) "gdp") = c2
    generalize (strIncludes (strToLower s) "労働" || (strIncludes (strToLower s) "雇用" || strIncludes (strToLower s) "labor")) = c3
    generalize (strIncludes (strToLower s) "産業" || strIncludes (strToLower s) "industry") = c4
    generalize (strIncludes (strToLower s) "教育" || strIncludes (strToLower s) "education") = c5
    generalize (strIncludes (strToLower s) "医療" || strIncludes (strToLower s) "health") = c6
    generalize (strIncludes (strToLower s) "環境" || strIncludes (strToLower s) "environment") = c7
    cases c1 <;> cases c2 <;> cases c3 <;> cases c4 <;> cases c5 <;> cases c6 <;> cases c7 <;> rfl

/-- Claim C5: with a successful search, the run cuts the candidate list to
maxItems before the loop; the emitted summary counts exactly
min maxItems (number of candidates) processed tables, which never exceeds
maxItems however many candidates the search returned. -/
theorem claim_C5_max_items (c : Collab) (input : VInput) (now : String)
    (tables : List TableDesc) (h : tables ≠ []) :
    ∃ items total,
      mainLogic c (.ok tables) input now true =
        items ++ [Item.summary (tables.take input.maxItems).length total now] ∧
      (tables.take input.maxItems).length ≤ input.maxItems ∧
      (tables.take input.maxItems).length = min input.maxItems tables.length := by
  have h0 : (tables.length == 0) = false := by
    cases tables with
    | nil => exact absurd rfl h
    | cons a l => rfl
  have hmain : mainLogic c (.ok tables) input now true =
      (if (tables.length == 0) = true then [Item.noData now]
       else (processLoop c input now (tables.take input.maxItems)).1 ++
         [Item.summary (tables.take input.maxItems).length
           (processLoop c input now (tables.take input.maxItems)).2 now]) := rfl
  rw [hmain, h0]
  simp only [Bool.false_eq_true, if_false]
  refine ⟨(processLoop c input now (tables.take input.maxItems)).1,
    (processLoop c input now (tables.take input.maxItems)).2, rfl, ?_, ?_⟩
  · rw [List.length_take]
    exact Nat.min_le_left _ _
  · exact List.length_take _ _

/-- Claim C5 witness: two candidates, maxItems 1. -/
theorem claim_C5_witness :
    (([cTableOne, cTableTwo] : List TableDesc) ≠ []) ∧
    (∃ items total,
      mainLogic cCollabOk (.ok [cTableOne, cTableTwo]) cInputOneItem "T0" true =
        items ++ [Item.summary ([cTableOne, cTableTwo].take cInputOneItem.maxItems).length total "T0"] ∧
      ([cTableOne, cTableTwo].take cInputOneItem.maxItems).length ≤ cInputOneItem.maxItems ∧
      ([cTableOne, cTableTwo].take cInputOneItem.maxItems).length
        = min cInputOneItem.maxItems ([cTableOne, cTableTwo] : List TableDesc).length) :=
  ⟨by simp, claim_C5_max_items cCollabOk cInputOneItem "T0" [cTableOne, cTableTwo] (by simp)⟩

/-- Claim C6: when a table's data fetch fails, that table contributes exactly
one error-tagged item carrying its id (and no normalized records, since the
count it adds is 0), and the loop continues with the remaining tables
unchanged. -/
theorem claim_C6_table_failure (c : Collab) (input : VInput) (now : String)
    (t : TableDesc) (ts : List TableDesc) (e : String)
    (h : c.dataOf t.id = .error e) :
    processTable c input now t = ([Item.errorItem t.id t.title e now], 0) ∧
    (processLoop c input now (t :: ts)).1 =
      Item.errorItem t.id t.title e now :: (processLoop c input now ts).1 ∧
    (processLoop c input now (t :: ts)).2 = (processLoop c input now ts).2 := by
  have hp : processTable c input now t = ([Item.errorItem t.id t.title e now], 0) := by
    unfold processTable
    rw [h]
  refine ⟨hp, ?_, ?_⟩
  · simp [processLoop, hp]
  · simp [processLoop, hp]

/-- Claim C6 witness: a collaborator whose data fetch always fails, applied
to one table followed by another. -/
theorem claim_C6_witness :
    cCollabDataFail.dataOf cTableOne.id = .error "e-Stat API Error: fetch failed" ∧
    (processTable cCollabDataFail cInputStructured "T0" cTableOne =
      ([Item.errorItem cTableOne.id cTableOne.title "e-Stat API Error: fetch failed" "T0"], 0) ∧
    (processLoop cCollabDataFail cInputStructured "T0" [cTableOne, cTableTwo]).1 =
      Item.errorItem cTableOne.id cTableOne.title "e-Stat API Error: fetch failed" "T0" ::
        (processLoop cCollabDataFail cInputStructured "T0" [cTableTwo]).1 ∧
    (processLoop cCollabDataFail cInputStructured "T0" [cTableOne, cTableTwo]).2 =
      (processLoop cCollabDataFail cInputStructured "T0" [cTableTwo]).2) :=
  ⟨rfl, claim_C6_table_failure cCollabDataFail cInputStructured "T0" cTableOne [cTableTwo]
    "e-Stat API Error: fetch failed" rfl⟩

/-- Claim C7 (amended): when metadata inclusion is requested and the metadata
fetch fails, the table is still processed (the failure is non-fatal and the
metadata document becomes null), but normalizeStatisticalData ignores its
metadata argument entirely - the classification index is built from the
payload's own CLASS_INF - so the emitted records are exactly those of
normalization with a null metadata document, and resolution is unaffected by
the metadata failure. -/
theorem claim_C7_meta_failure (c : Collab) (input : VInput) (now : String)
    (t : TableDesc) (payload : JsVal) (e : String)
    (hm : c.metaOf t.id = .error e) (hd : c.dataOf t.id = .ok payload)
    (hi : input.includeMetadata = true) (ho : input.outputFormat = "structured") :
    processTable c input now t =
      (match normalizeStatisticalData payload JsVal.null t.id now with
       | .ok recs => (recs.map Item.record, recs.length)
       | .error e2 => ([Item.errorItem t.id t.title e2 now], 0)) ∧
    (∀ m, normalizeStatisticalData payload m t.id now =
      normalizeStatisticalData payload JsVal.null t.id now) := by
  constructor
  · unfold processTable
    rw [hm, hd, hi, ho]
    dsimp only
    cases hn : normalizeStatisticalData payload JsVal.null t.id now <;> simp [hn]
  · intro m
    rfl

/-- Claim C7 witness: the amended theorem applied to the failing-metadata
collaborator and the spec scenario payload. -/
theorem claim_C7_witness :
    cCollabMetaFail.metaOf cTableOne.id = .error "e-Stat API Error: meta failed" ∧
    cCollabMetaFail.dataOf cTableOne.id = .ok cRawScenario ∧
    cInputStructured.includeMetadata = true ∧
    cInputStructured.outputFormat = "structured" ∧
    (processTable cCollabMetaFail cInputStructured "T0" cTableOne =
      (match normalizeStatisticalData cRawScenario JsVal.null cTableOne.id "T0" with
       | .ok recs => (recs.map Item.record, recs.length)
       | .error e2 => ([Item.errorItem cTableOne.id cTableOne.title e2 "T0"], 0)) ∧
    (∀ m, normalizeStatisticalData cRawScenario m cTableOne.id "T0" =
      normalizeStatisticalData cRawScenario JsVal.null cTableOne.id "T0")) :=
  ⟨rfl, rfl, rfl, rfl,
    claim_C7_meta_failure cCollabMetaFail cInputStructured "T0" cTableOne cRawScenario
      "e-Stat API Error: meta failed" rfl rfl rfl rfl⟩

/-- Claim C7 counterexample: with the metadata fetch failing, the emitted
record still carries the resolved label 全国 for area code 00000 (taken from
the payload's CLASS_INF), not the raw code - refuting the claim that codes
pass through unresolved when the metadata fetch fails. -/
theorem claim_C7_counterexample :
    cCollabMetaFail.metaOf cTableOne.id = .error "e-Stat API Error: meta failed" ∧
    (recordsOf (processTable cCollabMetaFail cInputStructured "T0" cTableOne).1).map
        (fun r => r.region) = [JsVal.str "全国"] ∧
    JsVal.str "全国" ≠ JsVal.str "00000" :=
  ⟨rfl, rfl, by simp⟩

theorem normalizeRow_strip (idx : ClassIndex) (sn sd lu1 lu2 sid : JsVal) (n1 n2 : String)
    (item : JsVal) :
    (normalizeRow idx sn sd lu1 sid n1 item).map stripTs =
      (normalizeRow idx sn sd lu2 sid n2 item).map stripTs := by
  unfold normalizeRow
  cases getProp item "$" with
  | error e => rfl
  | ok dollar =>
    cases determineDataTypeJs sn with
    | error e => rfl
    | ok dt => rfl

theorem normRows_strip (idx : ClassIndex) (sn sd lu1 lu2 sid : JsVal) (n1 n2 : String) :
    ∀ rows : List JsVal,
      (normRows idx sn sd lu1 sid n1 rows).1.map stripTs =
        (normRows idx sn sd lu2 sid n2 rows).1.map stripTs ∧
      (normRows idx sn sd lu1 sid n1 rows).2 = (normRows idx sn sd lu2 sid n2 rows).2 := by
  intro rows
  induction rows with
  | nil => exact ⟨rfl, rfl⟩
  | cons it rest ih =>
    have hrow := normalizeRow_strip idx sn sd lu1 lu2 sid n1 n2 it
    unfold normRows
    cases h1 : normalizeRow idx sn sd lu1 sid n1 it with
    | error e =>
      cases h2 : normalizeRow idx sn sd lu2 sid n2 it with
      | error e2 =>
        rw [h1, h2] at hrow
        have he : e = e2 := by simpa [Except.map] using hrow
        subst he
        refine ⟨?_, ?_⟩ <;> trivial
      | ok r2 =>
        rw [h1, h2] at hrow
        simp [Except.map] at hrow
    | ok r1 =>
      cases h2 : normalizeRow idx sn sd lu2 sid n2 it with
      | error e2 =>
        rw [h1, h2] at hrow
        simp [Except.map] at hrow
      | ok r2 =>
        rw [h1, h2] at hrow
        have hsr : stripTs r1 = stripTs r2 := by simpa [Except.map] using hrow
        refine ⟨?_, ih.2⟩
        dsimp only
        simp only [List.map_cons]
        rw [hsr, ih.1]

theorem normBody_strip (rawData sid : JsVal) (n1 n2 : String) :
    (normBody rawData sid n1).1.map stripTs = (normBody rawData sid n2).1.map stripTs ∧
    (normBody rawData sid n1).2 = (normBody rawData sid n2).2 := by
  unfold normBody
  cases getProp rawData "TABLE_INF" with
  | error e => exact ⟨rfl, rfl⟩
  | ok tableInf =>
    cases getProp rawData "CLASS_INF" with
    | error e => exact ⟨rfl, rfl⟩
    | ok classInf =>
      cases getProp rawData "DATA_INF" with
      | error e => exact ⟨rfl, rfl⟩
      | ok dataInf =>
        dsimp only
        cases buildClassObj classInf with
        | error e => exact ⟨rfl, rfl⟩
        | ok idx =>
          by_cases ht : jsTruthy (optGet dataInf "VALUE") = true
          · simp only [ht, if_true]
            exact normRows_strip idx _ _ _ _ sid n1 n2 _
          · simp only [Bool.not_eq_true] at ht
            simp only [ht, Bool.false_eq_true, if_false]
            refine ⟨?_, ?_⟩ <;> trivial

theorem buildErrorRecord_strip (rawData sid : JsVal) (n1 n2 : String) (e : String) :
    (buildErrorRecord rawData sid n1 e).map stripTs =
      (buildErrorRecord rawData sid n2 e).map stripTs := by
  unfold buildErrorRecord
  cases getProp rawData "TABLE_INF" with
  | error e2 => rfl
  | ok ti => rfl

/-- Claim C8 (amended): normalizing the same payload with the same
classification metadata at two different wall-clock instants yields the same
outcome up to the two timestamped fields extractedAt and lastUpdated - the
latter also changes across calls whenever the payload carries no truthy
UPDATED_DATE, because it defaults to the current time. -/
theorem claim_C8_idempotent_up_to_timestamps (rawData meta sid : JsVal) (n1 n2 : String) :
    (normalizeStatisticalData rawData meta sid n1).map (fun l => l.map stripTs) =
      (normalizeStatisticalData rawData meta sid n2).map (fun l => l.map stripTs) := by
  have hb := normBody_strip rawData sid n1 n2
  unfold normalizeStatisticalData
  cases h1 : normBody rawData sid n1 with
  | mk recs1 err1 =>
    cases h2 : normBody rawData sid n2 with
    | mk recs2 err2 =>
      rw [h1, h2] at hb
      obtain ⟨hrec, herr⟩ := hb
      dsimp only at hrec herr
      subst herr
      cases err1 with
      | none => simp [Except.map, hrec]
      | some e =>
        have hber := buildErrorRecord_strip rawData sid n1 n2 e
        dsimp only
        cases hb1 : buildErrorRecord rawData sid n1 e with
        | error e2 =>
          cases hb2 : buildErrorRecord rawData sid n2 e with
          | error e3 =>
            rw [hb1, hb2] at hber
            have he : e2 = e3 := by simpa [Except.map] using hber
            subst he
            rfl
          | ok r2 =>
            rw [hb1, hb2] at hber
            simp [Except.map] at hber
        | ok r1 =>
          cases hb2 : buildErrorRecord rawData sid n2 e with
          | error e3 =>
            rw [hb1, hb2] at hber
            simp [Except.map] at hber
          | ok r2 =>
            rw [hb1, hb2] at hber
            have hsr : stripTs r1 = stripTs r2 := by simpa [Except.map] using hber
            simp [Except.map, hrec, hsr]

/-- Claim C8 counterexample: on a one-row payload without UPDATED_DATE, two
normalizations at different instants differ in the lastUpdated field, not
only in extractedAt as the claim states. -/
theorem claim_C8_counterexample :
    (resultRecords (normalizeStatisticalData cRawOneRow .null (.str "t") "A")).map
        (fun r => r.lastUpdated) = [JsVal.str "A"] ∧
    (resultRecords (normalizeStatisticalData cRawOneRow .null (.str "t") "B")).map
        (fun r => r.lastUpdated) = [JsVal.str "B"] ∧
    ([JsVal.str "A"] : List JsVal) ≠ [JsVal.str "B"] :=
  ⟨rfl, rfl, by simp⟩

/-- Claim C9: a search failure whose message is classified as an
authentication or authorization condition (it mentions 403 or 401) makes the
run emit exactly the fixed 2-record sample dataset filtered by the keyword
predicate and capped at maxItems, followed by one demo_summary item; no
error-tagged item is emitted on that path. -/
theorem claim_C9_auth_fallback (c : Collab) (input : VInput) (now : String) (e : String)
    (h : strIncludes e "403" = true ∨ strIncludes e "401" = true) :
    mainLogic c (.error e) input now true =
      (demoCapped input now).map Item.demo ++
        [Item.demoSummary (demoCapped input now).length now] ∧
    (mainLogic c (.error e) input now true).all (fun i => !isErrorTagged i) = true ∧
    (demoData now).length = 2 := by
  have hcond : (strIncludes e "403" || strIncludes e "401" || strIncludes e "API") = true := by
    rcases h with h | h <;> simp [h]
  have hmain : mainLogic c (.error e) input now true =
      (if (strIncludes e "403" || strIncludes e "401" || strIncludes e "API") = true then
        runDemoMode input now
       else Item.runError e now :: runDemoMode input now) := rfl
  rw [hmain, hcond, if_pos rfl]
  refine ⟨rfl, ?_, rfl⟩
  unfold runDemoMode
  simp [List.all_eq_true, isErrorTagged]

/-- Claim C9 witness: the fallback theorem applied to a concrete 403-status
error message. -/
theorem claim_C9_witness :
    (strIncludes "e-Stat API Error: Status 403 - forbidden" "403" = true ∨
      strIncludes "e-Stat API Error: Status 403 - forbidden" "401" = true) ∧
    (mainLogic cCollabOk (.error "e-Stat API Error: Status 403 - forbidden")
        cInputStructured "T0" true =
      (demoCapped cInputStructured "T0").map Item.demo ++
        [Item.demoSummary (demoCapped cInputStructured "T0").length "T0"] ∧
    (mainLogic cCollabOk (.error "e-Stat API Error: Status 403 - forbidden")
        cInputStructured "T0" true).all (fun i => !isErrorTagged i) = true ∧
    (demoData "T0").length = 2) :=
  ⟨Or.inl (by decide),
    claim_C9_auth_fallback cCollabOk cInputStructured "T0"
      "e-Stat API Error: Status 403 - forbidden" (Or.inl (by decide))⟩

/-- Claim C10: the code contradicts its own README here - with metadata
inclusion switched off, the emitted record still carries the full metadata
object (title, resolved categories, original coded row), because the record
literal in normalizeStatisticalData attaches it unconditionally. -/
theorem claim_C10_metadata_always_present :
    cInputNoMeta.includeMetadata = false ∧
    (recordsOf (processTable cCollabOk cInputNoMeta "T0" cTableOne).1).map
        (fun r => r.metadata)
      = [RecMeta.norm (.str "国勢調査 人口総数")
          [("area", .str "全国")]
          (.obj [("@area", .str "00000"), ("@unit", .str "人"), ("$", .str "125836021")])] :=
  ⟨rfl, rfl⟩
